import Mathlib

/-
Shallow embedding of the double-entry ledger in `mysite/accounting`
(models.py, views.py, forms.py) and proofs about its claims.

Conventions of the embedding:
* `DecimalField(max_digits=18, decimal_places=2)` amounts and balances are
  exact fixed-point decimals; the only arithmetic performed on them is
  addition and subtraction, so they are modelled as the exact integers `Int`
  (values in minor units).  No rounding occurs in the source.
* Database rows are modelled by a state record `DB`: a total map from primary
  key to `Account` (foreign keys use `on_delete=PROTECT`, so every account id
  referenced by a stored transaction exists) and a list of stored
  `Txn` rows.  Auto primary keys are modelled by a `nextId` counter.
* Raising `ValidationError` / `DoesNotExist` is modelled by returning
  `(db, Except.error e)` with the state unchanged: in the source every raise
  happens before any write, or inside `transaction.atomic()` whose rollback
  restores the pre-state.
* `timezone.now` is not modelled; `created_at` is recorded as `0`.
-/

namespace Accounting

/-- Account.AccountType (models.py): ASSET = "A", LIABILITY = "P", BOTH = "AP". -/
inductive AccountType where
  | asset
  | liability
  | both
deriving DecidableEq

/-- Account (models.py): number, name, type, group (pk of its BalanceGroup),
balance.  `balance` defaults to 0 in the source. -/
structure Account where
  number : String
  name : String
  type : AccountType
  group : Nat
  balance : Int
deriving DecidableEq

/-- Account.apply_debit (models.py lines 74-79): Asset or Both gains `amount`,
Liability loses `amount`; the new balance is persisted. -/
def applyDebit (a : Account) (amount : Int) : Account :=
  if a.type = AccountType.asset ∨ a.type = AccountType.both then
    { a with balance := a.balance + amount }
  else
    { a with balance := a.balance - amount }

/-- Account.apply_credit (models.py lines 81-86): Asset or Both loses `amount`,
Liability gains `amount`; the new balance is persisted. -/
def applyCredit (a : Account) (amount : Int) : Account :=
  if a.type = AccountType.asset ∨ a.type = AccountType.both then
    { a with balance := a.balance - amount }
  else
    { a with balance := a.balance + amount }

/-- Transaction row (models.py lines 89-111).  `id` is the auto primary key
(`none` before the first save); `debit_account`/`credit_account` are nullable
foreign keys to Account; `reversal_of` is a nullable self-reference. -/
structure Txn where
  id : Option Nat
  debit_account : Option Nat
  credit_account : Option Nat
  amount : Int
  description : String
  created_at : Nat
  is_annulled : Bool
  reversal_of : Option Nat
  is_applied : Bool
deriving DecidableEq, Inhabited

/-- Error kinds raised by the accounting operations.  The first three are the
ValidationError cases of Transaction.clean, the next two those of
Transaction.annul; `doesNotExist` models `Account.objects.get` on a missing
key (unreachable after clean has passed). -/
inductive Err where
  | missingAccount
  | sameAccount
  | nonPositiveAmount
  | alreadyAnnulled
  | cannotAnnulAReversal
  | doesNotExist
deriving DecidableEq

/-- Transaction.clean (models.py lines 124-130): both accounts must be chosen,
they must differ, and the amount must be positive; checks run in this order. -/
def clean (t : Txn) : Except Err Unit :=
  if t.debit_account = none ∨ t.credit_account = none then
    Except.error Err.missingAccount
  else if t.debit_account = t.credit_account then
    Except.error Err.sameAccount
  else if t.amount ≤ 0 then
    Except.error Err.nonPositiveAmount
  else
    Except.ok ()

/-- Database state: accounts by primary key, stored transaction rows, and the
next auto primary key. -/
structure DB where
  accounts : Nat → Account
  txns : List Txn
  nextId : Nat

/-- An UPDATE of a stored transaction row: the row with the same primary key
is replaced. -/
def updateRow (txns : List Txn) (t : Txn) : List Txn :=
  txns.map (fun u => if u.id = t.id then t else u)

/-- Model.save as seen from Transaction.save's `super().save(...)` calls:
INSERT with a fresh primary key when `id` is none, otherwise an UPDATE of the
existing row.  (The source passes `update_fields` on the flag-only updates;
there the in-memory object coincides with the stored row except for the
updated flag, so writing the whole object is the same write.) -/
def superSave (db : DB) (t : Txn) : DB × Txn :=
  match t.id with
  | none =>
      let t' := { t with id := some db.nextId }
      ({ db with txns := db.txns ++ [t'], nextId := db.nextId + 1 }, t')
  | some _ => ({ db with txns := updateRow db.txns t }, t)

/-- Transaction.apply_balances (models.py lines 132-143).  No-op when
`is_applied` is already true.  Otherwise, inside `transaction.atomic()`, both
account rows are fetched (debit first, then credit, both with
`select_for_update`, both reads preceding both writes), `apply_debit` and
`apply_credit` post the two balance writes in that order (so on equal keys the
later credit write would win, matching the stale-fetch semantics of the
source), and the `is_applied` flag is persisted.  A missing account id makes
`get` raise DoesNotExist before any write. -/
def applyBalances (db : DB) (t : Txn) : DB × Except Err Txn :=
  if t.is_applied then (db, Except.ok t)
  else
    match t.debit_account, t.credit_account with
    | some d, some c =>
        let debit := db.accounts d
        let credit := db.accounts c
        let accounts' := fun i =>
          if i = c then applyCredit credit t.amount
          else if i = d then applyDebit debit t.amount
          else db.accounts i
        let t' := { t with is_applied := true }
        ({ db with accounts := accounts', txns := updateRow db.txns t' }, Except.ok t')
    | _, _ => (db, Except.error Err.doesNotExist)

/-- Transaction.save (models.py lines 145-152): run full validation
(`full_clean`, hence `clean`) before every write, insert or update the row,
and invoke `apply_balances` ONLY when this save created the row AND
`reversal_of` is null. -/
def save (db : DB) (t : Txn) : DB × Except Err Txn :=
  match clean t with
  | Except.error e => (db, Except.error e)
  | Except.ok _ =>
      let creating := t.id.isNone
      let s := superSave db t
      if creating && s.2.reversal_of.isNone then applyBalances s.1 s.2
      else (s.1, Except.ok s.2)

/-- Helper for f-string rendering of a primary key. -/
def pkString (i : Option Nat) : String :=
  match i with
  | some n => toString n
  | none => "None"

/-- Transaction.objects.create(...): construct a fresh row with field defaults
(`is_annulled = false`, `is_applied = false`, no primary key) and save it. -/
def create (db : DB) (d c : Option Nat) (amount : Int) (descr : String)
    (rev : Option Nat) : DB × Except Err Txn :=
  save db { id := none, debit_account := d, credit_account := c,
            amount := amount, description := descr, created_at := 0,
            is_annulled := false, reversal_of := rev, is_applied := false }

/-- Transaction.annul (models.py lines 155-177): refuse an already annulled
transaction or a reversal; otherwise, inside one atomic block, mark the
original annulled (a flag-only save, which still runs full validation) and
create the reversal with swapped legs, the same amount, a generated
description and `reversal_of` pointing at the original.  An error inside the
atomic block rolls the whole state back. -/
def annul (db : DB) (t : Txn) : DB × Except Err Txn :=
  if t.is_annulled then (db, Except.error Err.alreadyAnnulled)
  else if t.reversal_of.isSome then (db, Except.error Err.cannotAnnulAReversal)
  else
    match save db { t with is_annulled := true } with
    | (db1, Except.ok t2) =>
        match create db1 t2.credit_account t2.debit_account t2.amount
            ("Сторно транзакции #" ++ pkString t2.id) t2.id with
        | (db2, Except.ok r) => (db2, Except.ok r)
        | (_, Except.error e) => (db, Except.error e)
    | (_, Except.error e) => (db, Except.error e)

/-- Extract the transaction from a successful operation result. -/
def getOk (r : DB × Except Err Txn) : Txn :=
  match r.2 with
  | Except.ok t => t
  | Except.error _ => default

/-- The signed balance delta that `apply_debit` posts for an account of the
given type, observed as the balance change it produces (derived from
`applyDebit`, not restated). -/
def debitDelta (ty : AccountType) (amount : Int) : Int :=
  (applyDebit { number := "", name := "", type := ty, group := 0, balance := 0 } amount).balance

/-- The signed balance delta that `apply_credit` posts for an account of the
given type, observed as the balance change it produces. -/
def creditDelta (ty : AccountType) (amount : Int) : Int :=
  (applyCredit { number := "", name := "", type := ty, group := 0, balance := 0 } amount).balance

/-- Side of the accounting equation an account type sits on: +1 for Asset and
Both (treated as asset-side by apply_debit/apply_credit), -1 for Liability. -/
def side : AccountType → Int
  | AccountType.asset => 1
  | AccountType.both => 1
  | AccountType.liability => -1

/-- Lock-acquisition order of apply_balances (models.py lines 138-139): the
debit account row is fetched with `select_for_update` first, then the credit
account row. -/
def lockOrder (t : Txn) : List (Option Nat) :=
  [t.debit_account, t.credit_account]

/-- Account._generate_account_number (models.py lines 45-50), whose loop is
`while True`: `draws i` is the i-th string produced by
`random.choices("0123456789", k=10)`, `taken` is
`Account.objects.filter(number=num).exists()`, `i` is the current iteration
and `fuel` an external observation depth: the function returns `some` exactly
when the source loop exits within `fuel` further iterations. -/
def genNumberAux (taken : String → Bool) (draws : Nat → String) :
    Nat → Nat → Option String
  | _, 0 => none
  | i, fuel + 1 =>
      if taken (draws i) then genNumberAux taken draws (i + 1) fuel
      else some (draws i)

/-- Observation of the generator from the first iteration. -/
def genNumber (taken : String → Bool) (draws : Nat → String) (fuel : Nat) :
    Option String :=
  genNumberAux taken draws 0 fuel

/-- Errors of the presentation layer's transaction_create view. -/
inductive ViewErr where
  | formInvalid
  | attributeError
deriving DecidableEq

/-- TransactionForm.clean (forms.py lines 10-23): both accounts required,
accounts must differ, amount must be truthy and positive. -/
def formClean (d c : Option Nat) (amount : Int) : Except ViewErr Unit :=
  if d = none ∨ c = none then Except.error ViewErr.formInvalid
  else if d = c then Except.error ViewErr.formInvalid
  else if amount ≤ 0 then Except.error ViewErr.formInvalid
  else Except.ok ()

/-- views.transaction_create on a POST (views.py lines 18-47): validate the
form; on success build the unsaved Transaction (`form.save(commit=False)`)
and evaluate `debit.account_type`.  The Account model defines the field
`type` (values "A"/"P"/"AP") and no attribute `account_type`, so this access
raises AttributeError before any balance write and before
`transaction.save()`; the request fails with the state unchanged. -/
def transactionCreateView (db : DB) (d c : Option Nat) (amount : Int) :
    DB × Except ViewErr Txn :=
  match formClean d c amount with
  | Except.error e => (db, Except.error e)
  | Except.ok _ => (db, Except.error ViewErr.attributeError)

/-- The double-entry block of views.transaction_create (views.py lines 30-41)
exactly as written, over the `account_type` strings the view compares against.
It assigns the two new balances directly (`debit.balance += amount`, ...)
without going through apply_debit/apply_credit; in the program this block is
dead code, since no Account carries an `account_type` attribute.  Returns the
directly assigned (debit balance, credit balance). -/
def viewDirectWrite (dtype ctype : String) (debitBal creditBal amount : Int) :
    Int × Int :=
  if dtype = "asset" ∧ ctype = "asset" then
    (debitBal + amount, creditBal - amount)
  else if dtype = "liability" ∧ ctype = "liability" then
    (debitBal - amount, creditBal + amount)
  else if dtype = "asset" ∧ ctype = "liability" then
    (debitBal + amount, creditBal + amount)
  else if dtype = "liability" ∧ ctype = "asset" then
    (debitBal - amount, creditBal - amount)
  else (debitBal, creditBal)

/-- Persisted-transaction invariant checked by Transaction.clean: both account
references present, distinct accounts, positive amount. -/
def TxnValid (t : Txn) : Prop :=
  t.debit_account ≠ none ∧ t.credit_account ≠ none ∧
    t.debit_account ≠ t.credit_account ∧ 0 < t.amount

/-- The storage-level CheckConstraint `amount__gt=0` named "amount_positive"
(models.py lines 117-119). -/
def amountPositiveConstraint (t : Txn) : Prop :=
  0 < t.amount

/-- Concrete Asset account A with balance 0 (primary key 0 in `db0`). -/
def assetA : Account :=
  { number := "0000000001", name := "A", type := AccountType.asset,
    group := 0, balance := 0 }

/-- Concrete Liability account B with balance 0 (primary key 1 in `db0`). -/
def liabilityB : Account :=
  { number := "0000000002", name := "B", type := AccountType.liability,
    group := 0, balance := 0 }

/-- Initial store: Asset A at key 0, Liability B at key 1, no transactions. -/
def db0 : DB :=
  { accounts := fun i => if i = 1 then liabilityB else assetA,
    txns := [], nextId := 1 }

/-- The scenario posting: create(debit=A, credit=B, amount=100). -/
def created : DB × Except Err Txn :=
  create db0 (some 0) (some 1) 100 "initial posting" none

/-- Annulment of the scenario posting. -/
def annulled : DB × Except Err Txn :=
  annul created.1 (getOk created)

/-- Store contents after the direct balance writes of the view's double-entry
block (the Asset-debit/Liability-credit branch), before `transaction.save()`
would run. -/
def dbAfterViewWrite : DB :=
  { db0 with accounts := fun i =>
      if i = 1 then
        { liabilityB with balance := (viewDirectWrite "asset" "liability" 0 0 100).2 }
      else
        { assetA with balance := (viewDirectWrite "asset" "liability" 0 0 100).1 } }

/-- A transaction whose roles are debit = account 1, credit = account 2. -/
def txnDebitFirst : Txn :=
  { id := some 10, debit_account := some 1, credit_account := some 2,
    amount := 5, description := "", created_at := 0, is_annulled := false,
    reversal_of := none, is_applied := false }

/-- The same pair of accounts with the roles swapped. -/
def txnCreditFirst : Txn :=
  { txnDebitFirst with debit_account := some 2, credit_account := some 1 }

/-- A concrete already-applied transaction between accounts 0 and 1. -/
def txnAlreadyApplied : Txn :=
  { id := some 7, debit_account := some 0, credit_account := some 1,
    amount := 5, description := "", created_at := 0, is_annulled := false,
    reversal_of := none, is_applied := true }

/-- A concrete not-yet-applied transaction between accounts 0 and 1. -/
def txnNotApplied : Txn :=
  { txnAlreadyApplied with id := some 8, is_applied := false }

/-- Claim C1: annulling the applied Asset/Liability amount-100 posting creates
the reversal with swapped legs, the same amount and `reversal_of` pointing at
the original, but — because Transaction.save runs apply_balances only when
`reversal_of` is null — the reversal's balance effect is never applied: both
balances stay at 100 instead of returning to 0, and the reversal's
`is_applied` flag stays false, contradicting the claim (and the source's own
comment that the reversal is applied on save). -/
theorem annul_reversal_not_applied :
    (created.1.accounts 0).balance = 100 ∧
    (created.1.accounts 1).balance = 100 ∧
    (getOk created).is_applied = true ∧
    (getOk annulled).debit_account = some 1 ∧
    (getOk annulled).credit_account = some 0 ∧
    (getOk annulled).amount = 100 ∧
    (getOk annulled).reversal_of = some 1 ∧
    (annulled.1.accounts 0).balance = 100 ∧
    (annulled.1.accounts 1).balance = 100 ∧
    (getOk annulled).is_applied = false := by
  decide

/-- Claim C2, counterexample: for the valid Asset-debit / Liability-credit
posting of amount 100, the two posted balance deltas are +100 and +100; their
sum is 200, not zero. -/
theorem posted_deltas_sum_nonzero :
    ((created.1.accounts 0).balance - (db0.accounts 0).balance) +
        ((created.1.accounts 1).balance - (db0.accounts 1).balance) = 200 ∧
      debitDelta AccountType.asset 100 + creditDelta AccountType.liability 100 ≠ 0 := by
  decide

/-- Claim C2, amended: the two posted deltas, each weighted by the account's
balance-sheet side (+1 for Asset/Both, -1 for Liability), always sum to zero;
the unweighted deltas sum to zero exactly when the two accounts lie on the
same side. -/
theorem weighted_deltas_sum_zero :
    ∀ (dty cty : AccountType) (a : Int),
      side dty * debitDelta dty a + side cty * creditDelta cty a = 0 ∧
      (0 < a → (debitDelta dty a + creditDelta cty a = 0 ↔ side dty = side cty)) := by
  intro dty cty a
  cases dty <;> cases cty <;>
    refine ⟨by simp [side, debitDelta, creditDelta, applyDebit, applyCredit], ?_⟩ <;>
    intro ha <;>
    simp [side, debitDelta, creditDelta, applyDebit, applyCredit] <;>
    omega

/-- Witness for C2's amended theorem at the counterexample's input and at a
same-side input. -/
theorem weighted_deltas_sum_zero_witness :
    side AccountType.asset * debitDelta AccountType.asset 100 +
        side AccountType.liability * creditDelta AccountType.liability 100 = 0 ∧
      debitDelta AccountType.asset 100 + creditDelta AccountType.asset 100 = 0 :=
  ⟨(weighted_deltas_sum_zero AccountType.asset AccountType.liability 100).1,
   ((weighted_deltas_sum_zero AccountType.asset AccountType.asset 100).2
      (by decide)).mpr rfl⟩

/-- Claim C3: the presentation layer's transaction_create assigns account
balances directly instead of using the engine's apply path.  At the failing
input (valid form: debit = Asset 0, credit = Liability 1, amount 100) the view
as executed raises AttributeError (Account has no `account_type` attribute)
with the store untouched; the double-entry block as written would set both
balances to 100 by direct assignment, and the subsequent `transaction.save()`
would post the engine's deltas again, leaving 200 on both accounts — the
balances are not mutated exclusively through the apply path. -/
theorem view_create_bypasses_apply_path :
    transactionCreateView db0 (some 0) (some 1) 100 =
        (db0, Except.error ViewErr.attributeError) ∧
      viewDirectWrite "asset" "liability" 0 0 100 = (100, 100) ∧
      ((create dbAfterViewWrite (some 0) (some 1) 100 "" none).1.accounts 0).balance = 200 ∧
      ((create dbAfterViewWrite (some 0) (some 1) 100 "" none).1.accounts 1).balance = 200 :=
  ⟨rfl, rfl, by decide, by decide⟩

/-- Claim C4, counterexample: two transactions on the same pair of accounts
with the roles swapped lock the rows in different orders. -/
theorem lock_order_role_dependent :
    lockOrder txnDebitFirst ≠ lockOrder txnCreditFirst := by
  decide

/-- Claim C4, amended: apply_balances locks the two account rows in
per-transaction role order — the debit row first, then the credit row — so
swapping the roles of the two accounts reverses the acquisition order. -/
theorem lock_order_debit_first :
    ∀ t u : Txn, u.debit_account = t.credit_account →
      u.credit_account = t.debit_account →
      lockOrder u = (lockOrder t).reverse := by
  intro t u h1 h2
  simp [lockOrder, h1, h2]

/-- Witness for C4's amended theorem on the counterexample pair. -/
theorem lock_order_debit_first_witness :
    lockOrder txnCreditFirst = (lockOrder txnDebitFirst).reverse :=
  lock_order_debit_first txnDebitFirst txnCreditFirst rfl rfl

/-- Claim C6: the balance rule maps Asset/Both + Debit to +amount, Asset/Both
+ Credit to -amount, Liability + Debit to -amount, Liability + Credit to
+amount; and the Asset-debit/Liability-credit amount-100 posting leaves both
balances at 100. -/
theorem balance_rule_deltas :
    (∀ (acc : Account) (a : Int),
        acc.type = AccountType.asset ∨ acc.type = AccountType.both →
          (applyDebit acc a).balance = acc.balance + a ∧
            (applyCredit acc a).balance = acc.balance - a) ∧
      (∀ (acc : Account) (a : Int),
          acc.type = AccountType.liability →
            (applyDebit acc a).balance = acc.balance - a ∧
              (applyCredit acc a).balance = acc.balance + a) ∧
      (created.1.accounts 0).balance = 100 ∧
      (created.1.accounts 1).balance = 100 := by
  refine ⟨?_, ?_, by decide, by decide⟩
  · intro acc a h
    exact ⟨by simp [applyDebit, h], by simp [applyCredit, h]⟩
  · intro acc a h
    have h2 : ¬(acc.type = AccountType.asset ∨ acc.type = AccountType.both) := by
      simp [h]
    exact ⟨by simp [applyDebit, h2], by simp [applyCredit, h2]⟩

/-- Witness for C6 at the two concrete scenario accounts. -/
theorem balance_rule_deltas_witness :
    ((applyDebit assetA 100).balance = assetA.balance + 100 ∧
        (applyCredit assetA 100).balance = assetA.balance - 100) ∧
      (applyDebit liabilityB 100).balance = liabilityB.balance - 100 ∧
        (applyCredit liabilityB 100).balance = liabilityB.balance + 100 :=
  ⟨balance_rule_deltas.1 assetA 100 (Or.inl rfl),
   balance_rule_deltas.2.1 liabilityB 100 rfl⟩

/-- apply_balances returns immediately when the transaction is already
applied. -/
lemma applyBalances_of_applied (db : DB) (t : Txn) (h : t.is_applied = true) :
    applyBalances db t = (db, Except.ok t) := by
  simp [applyBalances, h]

/-- Claim C5: apply_balances is a no-op on an already-applied transaction, and
applying a second time after a successful application changes nothing. -/
theorem apply_balances_idempotent :
    (∀ (db : DB) (t : Txn), t.is_applied = true →
        applyBalances db t = (db, Except.ok t)) ∧
      ∀ (db db' : DB) (t t' : Txn), applyBalances db t = (db', Except.ok t') →
        applyBalances db' t' = (db', Except.ok t') := by
  refine ⟨applyBalances_of_applied, ?_⟩
  intro db db' t t' h
  by_cases hap : t.is_applied = true
  · rw [applyBalances_of_applied db t hap, Prod.mk.injEq] at h
    obtain ⟨rfl, h2⟩ := h
    rw [Except.ok.injEq] at h2
    subst h2
    exact applyBalances_of_applied db t hap
  · have hap' : t.is_applied = false := by simpa using hap
    rw [applyBalances] at h
    rw [hap'] at h
    simp only [Bool.false_eq_true, if_false] at h
    cases hd : t.debit_account with
    | none =>
        rw [hd] at h
        simp at h
    | some d =>
        cases hc : t.credit_account with
        | none =>
            rw [hd, hc] at h
            simp at h
        | some c =>
            rw [hd, hc] at h
            simp only [Prod.mk.injEq, Except.ok.injEq] at h
            obtain ⟨rfl, rfl⟩ := h
            exact applyBalances_of_applied _ _ rfl

/-- Witness for C5: the no-op on a concrete applied transaction, and the
second application after a concrete successful application. -/
theorem apply_balances_idempotent_witness :
    applyBalances db0 txnAlreadyApplied = (db0, Except.ok txnAlreadyApplied) ∧
      applyBalances (applyBalances db0 txnNotApplied).1
          (getOk (applyBalances db0 txnNotApplied)) =
        ((applyBalances db0 txnNotApplied).1,
          Except.ok (getOk (applyBalances db0 txnNotApplied))) :=
  ⟨apply_balances_idempotent.1 db0 txnAlreadyApplied rfl,
   apply_balances_idempotent.2 db0 (applyBalances db0 txnNotApplied).1
     txnNotApplied (getOk (applyBalances db0 txnNotApplied)) rfl⟩

/-- Claim C7: a create request with a missing account, equal debit and credit
accounts, or a non-positive amount fails with the respective validation error
and leaves the store exactly as it was (no row persisted, no balance
changed). -/
theorem create_validation_errors :
    ∀ (db : DB) (d c : Option Nat) (a : Int) (descr : String) (rev : Option Nat),
      ((d = none ∨ c = none) →
          create db d c a descr rev = (db, Except.error Err.missingAccount)) ∧
        (d ≠ none → c ≠ none → d = c →
          create db d c a descr rev = (db, Except.error Err.sameAccount)) ∧
        (d ≠ none → c ≠ none → d ≠ c → a ≤ 0 →
          create db d c a descr rev = (db, Except.error Err.nonPositiveAmount)) := by
  intro db d c a descr rev
  refine ⟨?_, ?_, ?_⟩
  · rintro (rfl | rfl) <;> simp [create, save, clean]
  · intro hd hc heq
    simp [create, save, clean, hd, hc, heq]
  · intro hd hc hne ha
    simp [create, save, clean, hd, hc, hne, ha]

/-- Witness for C7 on the three concrete invalid requests of the spec's
scenarios. -/
theorem create_validation_errors_witness :
    create db0 none (some 1) 50 "" none = (db0, Except.error Err.missingAccount) ∧
      create db0 (some 0) (some 0) 50 "" none = (db0, Except.error Err.sameAccount) ∧
      create db0 (some 0) (some 1) (-5) "" none =
        (db0, Except.error Err.nonPositiveAmount) :=
  ⟨(create_validation_errors db0 none (some 1) 50 "" none).1 (Or.inl rfl),
   (create_validation_errors db0 (some 0) (some 0) 50 "" none).2.1
     (by decide) (by decide) rfl,
   (create_validation_errors db0 (some 0) (some 1) (-5) "" none).2.2
     (by decide) (by decide) (by decide) (by decide)⟩

/-- Claim C8: annul refuses an already-annulled transaction and refuses a
reversal, each with the respective error kind, and leaves the store exactly
as it was. -/
theorem annul_precondition_errors :
    ∀ (db : DB) (t : Txn),
      (t.is_annulled = true → annul db t = (db, Except.error Err.alreadyAnnulled)) ∧
        (t.is_annulled = false → t.reversal_of.isSome = true →
          annul db t = (db, Except.error Err.cannotAnnulAReversal)) := by
  intro db t
  constructor
  · intro h
    simp [annul, h]
  · intro h1 h2
    simp [annul, h1, h2]

/-- Witness for C8: a concrete annulled transaction, and the reversal spawned
in the annulment scenario itself. -/
theorem annul_precondition_errors_witness :
    annul db0 { txnAlreadyApplied with is_annulled := true } =
        (db0, Except.error Err.alreadyAnnulled) ∧
      annul annulled.1 (getOk annulled) =
        (annulled.1, Except.error Err.cannotAnnulAReversal) :=
  ⟨(annul_precondition_errors db0 { txnAlreadyApplied with is_annulled := true }).1 rfl,
   (annul_precondition_errors annulled.1 (getOk annulled)).2 rfl rfl⟩

/-- Under total collision (every candidate number already taken) the
generator's loop never exits, whatever the draw sequence. -/
lemma genNumberAux_all_taken (draws : Nat → String) :
    ∀ (fuel i : Nat), genNumberAux (fun _ => true) draws i fuel = none := by
  intro fuel
  induction fuel with
  | zero => intro i; rfl
  | succ n ih => intro i; simpa [genNumberAux] using ih (i + 1)

/-- Claim C9, counterexample (negation of the claim): there is no max-attempts
bound within which the number-generation loop always returns — against a
store where every 10-digit number is taken, it never exits. -/
theorem gen_number_no_attempt_bound :
    ¬ ∃ N : Nat, ∀ (taken : String → Bool) (draws : Nat → String),
        (genNumber taken draws N).isSome = true := by
  rintro ⟨N, h⟩
  have hall := h (fun _ => true) (fun _ => "0000000000")
  rw [genNumber, genNumberAux_all_taken] at hall
  simp at hall

/-- The loop exits within `fuel` further iterations from iteration `i` exactly
when one of the next `fuel` draws is not taken. -/
lemma genNumberAux_isSome_iff (taken : String → Bool) (draws : Nat → String) :
    ∀ (fuel i : Nat),
      (genNumberAux taken draws i fuel).isSome = true ↔
        ∃ j, j < fuel ∧ taken (draws (i + j)) = false := by
  intro fuel
  induction fuel with
  | zero => intro i; simp [genNumberAux]
  | succ n ih =>
      intro i
      by_cases h : taken (draws i) = true
      · rw [genNumberAux, if_pos h, ih]
        constructor
        · rintro ⟨j, hj, hjf⟩
          refine ⟨j + 1, by omega, ?_⟩
          have he : i + (j + 1) = i + 1 + j := by omega
          rw [he]
          exact hjf
        · rintro ⟨j, hj, hjf⟩
          cases j with
          | zero =>
              rw [Nat.add_zero] at hjf
              rw [h] at hjf
              exact absurd hjf (by simp)
          | succ k =>
              refine ⟨k, by omega, ?_⟩
              have he : i + 1 + k = i + (k + 1) := by omega
              rw [he]
              exact hjf
      · have hf : taken (draws i) = false := by simpa using h
        rw [genNumberAux, if_neg h]
        simp only [Option.isSome_some, true_iff]
        exact ⟨0, by omega, by simpa using hf⟩

/-- Claim C9, amended: the number-generation loop has no attempt bound; it
returns within `fuel` iterations exactly when one of the first `fuel` draws is
not already taken, and under total collision it never returns. -/
theorem gen_number_terminates_iff :
    ∀ (taken : String → Bool) (draws : Nat → String) (fuel : Nat),
      ((genNumber taken draws fuel).isSome = true ↔
          ∃ j, j < fuel ∧ taken (draws j) = false) ∧
        genNumber (fun _ => true) draws fuel = none := by
  intro taken draws fuel
  constructor
  · rw [genNumber, genNumberAux_isSome_iff]
    simp
  · rw [genNumber, genNumberAux_all_taken]

/-- A transaction passes clean exactly when it satisfies the row invariant. -/
lemma clean_ok_iff (t : Txn) : clean t = Except.ok () ↔ TxnValid t := by
  unfold clean TxnValid
  split_ifs with h1 h2 h3
  · constructor
    · intro h
      exact absurd h (by simp)
    · rintro ⟨hd, hc, _, _⟩
      rcases h1 with h | h
      · exact absurd h hd
      · exact absurd h hc
  · constructor
    · intro h
      exact absurd h (by simp)
    · rintro ⟨_, _, hne, _⟩
      exact absurd h2 hne
  · constructor
    · intro h
      exact absurd h (by simp)
    · rintro ⟨_, _, _, hpos⟩
      omega
  · constructor
    · intro _
      obtain ⟨hd, hc⟩ := not_or.mp h1
      exact ⟨hd, hc, h2, by omega⟩
    · intro _
      rfl

/-- Rows of an updated transaction list are old rows or the written row. -/
lemma mem_updateRow {l : List Txn} {t u : Txn} (h : u ∈ updateRow l t) :
    u ∈ l ∨ u = t := by
  unfold updateRow at h
  obtain ⟨v, hv, hvu⟩ := List.mem_map.mp h
  by_cases hid : v.id = t.id
  · rw [if_pos hid] at hvu
    exact Or.inr hvu.symm
  · rw [if_neg hid] at hvu
    exact Or.inl (hvu ▸ hv)

/-- apply_balances keeps the stored-row invariant: the transaction it returns
is the input with only the `is_applied` flag raised, and the store keeps only
old rows and that flag-updated row. -/
lemma applyBalances_invariant (db : DB) (t : Txn) (db' : DB) (t' : Txn)
    (h : applyBalances db t = (db', Except.ok t'))
    (hinv : ∀ u ∈ db.txns, TxnValid u) (hval : TxnValid t) :
    TxnValid t' ∧ ∀ u ∈ db'.txns, TxnValid u := by
  by_cases hap : t.is_applied = true
  · rw [applyBalances_of_applied db t hap, Prod.mk.injEq, Except.ok.injEq] at h
    obtain ⟨rfl, rfl⟩ := h
    exact ⟨hval, hinv⟩
  · have hap' : t.is_applied = false := by simpa using hap
    obtain ⟨hd, hc, hne, hpos⟩ := hval
    obtain ⟨d, hds⟩ := Option.ne_none_iff_exists'.mp hd
    obtain ⟨c, hcs⟩ := Option.ne_none_iff_exists'.mp hc
    rw [applyBalances, hap'] at h
    simp only [Bool.false_eq_true, if_false] at h
    rw [hds, hcs] at h
    simp only [Prod.mk.injEq, Except.ok.injEq] at h
    obtain ⟨rfl, rfl⟩ := h
    have hne' : (some d : Option Nat) ≠ some c := by
      rw [hds, hcs] at hne
      exact hne
    have hval' : TxnValid
        { t with debit_account := some d, credit_account := some c,
                 is_applied := true } :=
      ⟨by simp, by simp, by simpa using hne', hpos⟩
    refine ⟨hval', ?_⟩
    intro u hu
    rcases mem_updateRow hu with hmem | rfl
    · exact hinv u hmem
    · exact hval'

/-- Claim C10: every Transaction.save — creation or later update, including
the flag-only save performed by annul — runs the full validation, so a save
that succeeds writes only rows satisfying the invariant: both account
references present, debit distinct from credit, and amount strictly positive
(the latter also the storage CheckConstraint). -/
theorem save_revalidates_invariant :
    ∀ (db : DB) (t : Txn) (db' : DB) (t' : Txn),
      save db t = (db', Except.ok t') →
      (∀ u ∈ db.txns, TxnValid u) →
      TxnValid t' ∧ amountPositiveConstraint t' ∧ ∀ u ∈ db'.txns, TxnValid u := by
  intro db t db' t' hsave hinv
  cases hc : clean t with
  | error e =>
      rw [save, hc] at hsave
      simp at hsave
  | ok u =>
      cases u
      have hval : TxnValid t := (clean_ok_iff t).mp hc
      rw [save, hc] at hsave
      cases hid : t.id with
      | none =>
          simp only [superSave, hid, Option.isNone_none, Bool.true_and] at hsave
          cases hrev : t.reversal_of with
          | none =>
              have hvalins :
                  TxnValid { t with id := some db.nextId, reversal_of := none } :=
                hval
              have hinvins :
                  ∀ u ∈ db.txns ++
                      [{ t with id := some db.nextId, reversal_of := none }],
                    TxnValid u := by
                intro u hu
                rcases List.mem_append.mp hu with hmem | hmem
                · exact hinv u hmem
                · rw [List.mem_singleton.mp hmem]
                  exact hvalins
              simp only [hrev, Option.isNone_none, if_true] at hsave
              obtain ⟨hv, hrows⟩ :=
                applyBalances_invariant _ _ _ _ hsave hinvins hvalins
              exact ⟨hv, hv.2.2.2, hrows⟩
          | some r =>
              have hvalins :
                  TxnValid { t with id := some db.nextId, reversal_of := some r } :=
                hval
              have hinvins :
                  ∀ u ∈ db.txns ++
                      [{ t with id := some db.nextId, reversal_of := some r }],
                    TxnValid u := by
                intro u hu
                rcases List.mem_append.mp hu with hmem | hmem
                · exact hinv u hmem
                · rw [List.mem_singleton.mp hmem]
                  exact hvalins
              simp only [hrev, Option.isNone_some, Bool.false_eq_true, if_false,
                Prod.mk.injEq, Except.ok.injEq] at hsave
              obtain ⟨rfl, rfl⟩ := hsave
              exact ⟨hvalins, hvalins.2.2.2, hinvins⟩
      | some n =>
          simp only [superSave, hid, Option.isNone_some, Bool.false_and,
            Bool.false_eq_true, if_false, Prod.mk.injEq, Except.ok.injEq] at hsave
          obtain ⟨rfl, rfl⟩ := hsave
          refine ⟨hval, hval.2.2.2, ?_⟩
          intro u hu
          rcases mem_updateRow hu with hmem | rfl
          · exact hinv u hmem
          · exact hval

/-- Witness for C10 on the concrete scenario creation from the empty store. -/
theorem save_revalidates_invariant_witness :
    TxnValid (getOk created) ∧ amountPositiveConstraint (getOk created) ∧
      ∀ u ∈ created.1.txns, TxnValid u :=
  save_revalidates_invariant db0
    { id := none, debit_account := some 0, credit_account := some 1,
      amount := 100, description := "initial posting", created_at := 0,
      is_annulled := false, reversal_of := none, is_applied := false }
    created.1 (getOk created) rfl (by simp [db0])

end Accounting
